import Mathlib

/-!
Shallow embedding of the transform, sensor and reward-function logic of the
`simulate` repository (files `simenv/assets/asset.py`,
`simulate/assets/sensors.py`, `simenv/rl/reward_functions.py`), together with
theorems settling the specification claims about them.

Python floats are modelled as exact numbers: rationals where only list
plumbing and comparisons happen, reals where trigonometry is involved.
Python exceptions are modelled with `Except String`: a setter that raises
returns `.error msg` and produces no new stored value (so the previous stored
value is untouched).
-/

open Real

/-- Python values are dynamically typed: the scale setter of `Asset` can end up
storing a tuple whose components are themselves lists.  `PyVal` captures the
two shapes that actually occur: a number, or a tuple/list of values. -/
inductive PyVal where
  | num (q : ℚ)
  | tup (l : List PyVal)

/-- Embedding of `quat_from_euler(x, y, z)` from `simenv/assets/asset.py`
(lines 26-31): the XYZ Euler-angle (radians) to quaternion formula, returning
the list `[qx, qy, qz, qw]`. -/
noncomputable def quat_from_euler (x y z : ℝ) : List ℝ :=
  [ Real.sin (x / 2) * Real.cos (y / 2) * Real.cos (z / 2)
      - Real.cos (x / 2) * Real.sin (y / 2) * Real.sin (z / 2),
    Real.cos (x / 2) * Real.sin (y / 2) * Real.cos (z / 2)
      + Real.sin (x / 2) * Real.cos (y / 2) * Real.sin (z / 2),
    Real.cos (x / 2) * Real.cos (y / 2) * Real.sin (z / 2)
      - Real.sin (x / 2) * Real.sin (y / 2) * Real.cos (z / 2),
    Real.cos (x / 2) * Real.cos (y / 2) * Real.cos (z / 2)
      + Real.sin (x / 2) * Real.sin (y / 2) * Real.sin (z / 2) ]

/-- Embedding of `math.radians`: degrees to radians conversion. -/
noncomputable def math_radians (d : ℝ) : ℝ := d * Real.pi / 180

/-- Embedding of `quat_from_degrees(x, y, z)` from `simenv/assets/asset.py`
(lines 34-35): converts each component to radians and calls
`quat_from_euler`. -/
noncomputable def quat_from_degrees (x y z : ℝ) : List ℝ :=
  quat_from_euler (math_radians x) (math_radians y) (math_radians z)

/-- Squared Euclidean norm of a quaternion given as a list of components. -/
noncomputable def quatNormSq (l : List ℝ) : ℝ := (l.map (fun t => t ^ 2)).sum

/-- Embedding of the `Asset.translation` setter (`asset.py` lines 59-68),
dimensionality 3 branch: `None` defaults to the origin, a 3-vector is stored
as-is (`tuple(value)` keeps the components), any other length raises. -/
def Asset.setTranslation : Option (List ℚ) → Except String (List ℚ)
  | none => .ok [0, 0, 0]
  | some v =>
      if v.length = 3 then .ok v
      else .error "Translation should be of size 3 (X, Y, Z)"

/-- Embedding of the `Asset.rotation` setter (`asset.py` lines 74-85),
dimensionality 3 branch: `None` defaults to `[0.0, 0.0, 0.0, 0.0]`, a
3-vector is passed through `quat_from_euler` (the raw components, no degree
conversion), a 4-vector is stored as-is, any other length raises. -/
noncomputable def Asset.setRotation : Option (List ℝ) → Except String (List ℝ)
  | none => .ok [0, 0, 0, 0]
  | some v =>
      match v with
      | [x, y, z] => .ok (quat_from_euler x y z)
      | [qx, qy, qz, qw] => .ok [qx, qy, qz, qw]
      | _ => .error "Rotation should be of size 3 (Euler angles) or 4 (Quaternions"

/-- Embedding of the `Asset.scale` setter (`asset.py` lines 91-102),
dimensionality 3 branch: `None` defaults to ones; for a length-1 input the
source executes `value = [value, value, value]`, i.e. it repeats the input
LIST itself three times (not its scalar component), so the stored tuple has
the one-element list as each component; a 3-vector is stored as-is; any other
length raises.  Numbers are wrapped in `PyVal.num` so that the nested-list
components of the length-1 branch are representable. -/
def Asset.setScale : Option (List ℚ) → Except String (List PyVal)
  | none => .ok [PyVal.num 1, PyVal.num 1, PyVal.num 1]
  | some v =>
      if v.length = 1 then
        .ok [PyVal.tup (v.map PyVal.num), PyVal.tup (v.map PyVal.num),
             PyVal.tup (v.map PyVal.num)]
      else if v.length = 3 then .ok (v.map PyVal.num)
      else .error "Scale should be of size 1 (Uniform scale) or 3 (X, Y, Z)"

/-- Embedding of `ALLOWED_STATE_SENSOR_PROPERTIES` from
`simulate/assets/sensors.py` (lines 43-61): the dict mapping each recognized
property name to its number of scalar features, as an association list in
source order. -/
def ALLOWED_STATE_SENSOR_PROPERTIES : List (String × Nat) :=
  [ ("position", 3), ("position.x", 1), ("position.y", 1), ("position.z", 1),
    ("velocity", 3), ("velocity.x", 1), ("velocity.y", 1), ("velocity.z", 1),
    ("rotation", 3), ("rotation.x", 1), ("rotation.y", 1), ("rotation.z", 1),
    ("angular_velocity", 3), ("angular_velocity.x", 1),
    ("angular_velocity.y", 1), ("angular_velocity.z", 1),
    ("distance", 1) ]

/-- Python membership test `p in ALLOWED_STATE_SENSOR_PROPERTIES` (dict key
lookup). -/
def isAllowedProp (p : String) : Bool :=
  (ALLOWED_STATE_SENSOR_PROPERTIES.lookup p).isSome

/-- The `properties` argument of `StateSensor` as Python receives it: absent
(`None`), a bare string, or a list/tuple of strings. -/
inductive PropsInput where
  | nothing
  | str (s : String)
  | list (l : List String)

/-- Error message raised for an invalid properties list (the f-string of
`sensors.py` lines 121-124, with the offending list interpolated). -/
def stateSensorPropsErrMsg (l : List String) : String :=
  "The properties " ++ String.intercalate ", " l
    ++ " is not a valid StateSensor properties"

/-- Embedding of the `properties` handling in `StateSensor.__post_init__`
(`sensors.py` lines 116-124): `None` defaults to `[distance]` and, being a
list, is then validated by the `elif`; a non-list value is wrapped into a
one-element list WITHOUT validation (the `elif` branch is skipped); a
list/tuple is validated: if any member is not a recognized key, a
`ValueError` is raised.  Returns the value stored in `self.properties` or the
error. -/
def StateSensor.initProperties : PropsInput → Except String (List String)
  | .nothing =>
      if ["distance"].any (fun p => !(isAllowedProp p)) then
        .error (stateSensorPropsErrMsg ["distance"])
      else .ok ["distance"]
  | .str s => .ok [s]
  | .list l =>
      if l.any (fun p => !(isAllowedProp p)) then
        .error (stateSensorPropsErrMsg l)
      else .ok l

/-- One iteration of the loop in `get_state_sensor_n_properties`:
`n_features += ALLOWED_STATE_SENSOR_PROPERTIES[property]`, where a missing
key is a Python `KeyError`, modelled as `none`. -/
def stateSensorFoldStep (acc : Option Nat) (p : String) : Option Nat :=
  match acc, ALLOWED_STATE_SENSOR_PROPERTIES.lookup p with
  | some n, some k => some (n + k)
  | _, _ => none

/-- Embedding of `get_state_sensor_n_properties` (`sensors.py` lines 64-69):
sums the dict value of each declared property. -/
def get_state_sensor_n_properties (props : List String) : Option Nat :=
  props.foldl stateSensorFoldStep (some 0)

/-- Embedding of `StateSensor.observation_space` (`sensors.py` lines 126-128):
a Box space whose shape is the one-element list
`[get_state_sensor_n_properties(self)]`. -/
def StateSensor.observation_space_shape (props : List String) :
    Option (List Nat) :=
  (get_state_sensor_n_properties props).map (fun n => [n])

/-- Feature count per property name as the specification states it: 3 for the
vector properties position, velocity, rotation and angular_velocity, 1 for
each axis component and for distance.  This definition follows the words of
the spec claim, to be compared with the source table
`ALLOWED_STATE_SENSOR_PROPERTIES`. -/
def featureCount_spec (p : String) : Nat :=
  if p = "position" ∨ p = "velocity" ∨ p = "rotation" ∨ p = "angular_velocity"
  then 3 else 1

/-- Embedding of `ALLOWED_REWARD_TYPES` (`reward_functions.py` line 5). -/
def ALLOWED_REWARD_TYPES : List String :=
  ["dense", "sparse", "or", "and", "not", "see", "timeout"]

/-- Embedding of `ALLOWED_REWARD_DISTANCE_METRICS` (`reward_functions.py`
line 6). -/
def ALLOWED_REWARD_DISTANCE_METRICS : List String := ["euclidean"]

/-- Embedding of the `RewardFunction` dataclass (`reward_functions.py` lines
9-51): entities are abstract (`E`), `type` and `distance_metric` are optional
strings before `__post_init__` runs, and the two child reward functions are
optional nested `RewardFunction` values. -/
inductive RewardFunction (E : Type) : Type where
  | mk (entity_a entity_b : E) (ty dm : Option String) (scalar threshold : ℚ)
       (is_terminal is_collectable trigger_once : Bool)
       (reward_function_a reward_function_b : Option (RewardFunction E))

/-- Field accessor: `entity_a`. -/
def RewardFunction.entity_a {E : Type} : RewardFunction E → E
  | .mk ea _ _ _ _ _ _ _ _ _ _ => ea

/-- Field accessor: `entity_b`. -/
def RewardFunction.entity_b {E : Type} : RewardFunction E → E
  | .mk _ eb _ _ _ _ _ _ _ _ _ => eb

/-- Field accessor: `type`. -/
def RewardFunction.ty {E : Type} : RewardFunction E → Option String
  | .mk _ _ t _ _ _ _ _ _ _ _ => t

/-- Field accessor: `distance_metric`. -/
def RewardFunction.distance_metric {E : Type} : RewardFunction E → Option String
  | .mk _ _ _ d _ _ _ _ _ _ _ => d

/-- Field accessor: `scalar`. -/
def RewardFunction.scalar {E : Type} : RewardFunction E → ℚ
  | .mk _ _ _ _ s _ _ _ _ _ _ => s

/-- Field accessor: `threshold`. -/
def RewardFunction.threshold {E : Type} : RewardFunction E → ℚ
  | .mk _ _ _ _ _ t _ _ _ _ _ => t

/-- Field accessor: `is_terminal`. -/
def RewardFunction.is_terminal {E : Type} : RewardFunction E → Bool
  | .mk _ _ _ _ _ _ b _ _ _ _ => b

/-- Field accessor: `is_collectable`. -/
def RewardFunction.is_collectable {E : Type} : RewardFunction E → Bool
  | .mk _ _ _ _ _ _ _ b _ _ _ => b

/-- Field accessor: `trigger_once`. -/
def RewardFunction.trigger_once {E : Type} : RewardFunction E → Bool
  | .mk _ _ _ _ _ _ _ _ b _ _ => b

/-- Field accessor: `reward_function_a`. -/
def RewardFunction.reward_function_a {E : Type} :
    RewardFunction E → Option (RewardFunction E)
  | .mk _ _ _ _ _ _ _ _ _ a _ => a

/-- Field accessor: `reward_function_b`. -/
def RewardFunction.reward_function_b {E : Type} :
    RewardFunction E → Option (RewardFunction E)
  | .mk _ _ _ _ _ _ _ _ _ _ b => b

/-- Error message for an invalid reward type (`reward_functions.py` line 57). -/
def rewardTypeErrMsg (t : String) : String :=
  "Invalid reward type: " ++ t ++ ". Must be one of: "
    ++ String.intercalate ", " ALLOWED_REWARD_TYPES

/-- Error message for an invalid distance metric (`reward_functions.py` lines
61-63). -/
def rewardMetricErrMsg (m : String) : String :=
  "Invalid distance metric: " ++ m ++ ". Must be one of: "
    ++ String.intercalate ", " ALLOWED_REWARD_DISTANCE_METRICS

/-- Embedding of `RewardFunction.__post_init__` (`reward_functions.py` lines
53-63): `type` defaults to "dense" when `None` and must be in
`ALLOWED_REWARD_TYPES`; then `distance_metric` defaults to "euclidean" when
`None` and must be in `ALLOWED_REWARD_DISTANCE_METRICS`; otherwise a
`ValueError` is raised.  Returns the validated dataclass instance. -/
def RewardFunction.post_init {E : Type} :
    RewardFunction E → Except String (RewardFunction E)
  | .mk ea eb ty dm sc th te co tr fa fb =>
      let t := match ty with | none => "dense" | some s => s
      if t ∉ ALLOWED_REWARD_TYPES then .error (rewardTypeErrMsg t)
      else
        let m := match dm with | none => "euclidean" | some s => s
        if m ∉ ALLOWED_REWARD_DISTANCE_METRICS then .error (rewardMetricErrMsg m)
        else .ok (.mk ea eb (some t) (some m) sc th te co tr fa fb)

/-- Modelled from the spec: the scene-graph root seen by
`RewardFunction._post_copy`, supporting `get_node(name)` lookup (the scene
graph class itself is not under src/; the spec describes `get_node` as name
lookup resolving to a node of the tree). -/
structure SceneRoot (E : Type) where
  get_node : String → E

/-- Modelled from the spec: the agent passed to `_post_copy`, of which only
`tree_root` is used. -/
structure Agent (E : Type) where
  tree_root : SceneRoot E

/-- Embedding of `RewardFunction._post_copy` (`reward_functions.py` lines
65-82).  `lcn` models `Asset._get_last_copy_name` (not under src/; the spec
describes it as returning the name of the most recent clone of the entity).
A fresh instance is constructed — running `__post_init__` — with `entity_a`
and `entity_b` re-resolved from the agent tree root by their last-copy
names and every other field passed through unchanged; `reward_function_a`
and `reward_function_b` are passed as the same objects. -/
def RewardFunction.post_copy {E : Type} (lcn : E → String)
    (r : RewardFunction E) (agent : Agent E) :
    Except String (RewardFunction E) :=
  let root := agent.tree_root
  RewardFunction.post_init
    (.mk (root.get_node (lcn r.entity_a)) (root.get_node (lcn r.entity_b))
      r.ty r.distance_metric r.scalar r.threshold
      r.is_terminal r.is_collectable r.trigger_once
      r.reward_function_a r.reward_function_b)

/-- C1: the claim says a 1-length scale input `[s]` is stored as the broadcast
3-vector `(s, s, s)`.  The code instead executes `value = [value, value,
value]` with `value` still bound to the input list, so the stored tuple has
the one-element list `[s]` — not the scalar `s` — as each component.  This
theorem evaluates the setter on every 1-length input and shows the stored
value is the nested-list triple and is not the broadcast scalar triple. -/
theorem scale_uniform_input_stores_nested_lists (s : ℚ) :
    Asset.setScale (some [s])
      = .ok [PyVal.tup [PyVal.num s], PyVal.tup [PyVal.num s],
             PyVal.tup [PyVal.num s]] ∧
    Asset.setScale (some [s]) ≠ .ok [PyVal.num s, PyVal.num s, PyVal.num s] := by
  refine ⟨rfl, ?_⟩
  intro h
  simp only [Asset.setScale, List.length_cons, List.length_nil] at h
  norm_num at h
  exact PyVal.noConfusion h

/-- C3: the claim says constructing an `Asset` with `rotation=None` stores the
identity unit quaternion `(0, 0, 0, 1)`.  The code defaults to
`[0.0, 0.0, 0.0, 0.0]`, the degenerate zero quaternion, which differs from
the identity in its scalar component. -/
theorem rotation_default_is_zero_quaternion :
    Asset.setRotation none = .ok [0, 0, 0, 0] ∧
    Asset.setRotation none ≠ .ok [(0 : ℝ), 0, 0, 1] := by
  refine ⟨rfl, ?_⟩
  intro h
  simp only [Asset.setRotation] at h
  norm_num at h

/-- C8: every valid 3-vector input to the translation setter and to the scale
setter is stored exactly as supplied, component for component (the stored
scale components are the input numbers, wrapped as Python values). -/
theorem translation_scale_roundtrip (v w : List ℚ)
    (hv : v.length = 3) (hw : w.length = 3) :
    Asset.setTranslation (some v) = .ok v ∧
    Asset.setScale (some w) = .ok (w.map PyVal.num) := by
  constructor
  · simp [Asset.setTranslation, hv]
  · simp [Asset.setScale, hw]

/-- Witness for C8 at the concrete inputs `[1, 2, 3]` and `[4, 5, 6]`. -/
theorem translation_scale_roundtrip_witness :
    (([(1 : ℚ), 2, 3] : List ℚ).length = 3) ∧
    (([(4 : ℚ), 5, 6] : List ℚ).length = 3) ∧
    (Asset.setTranslation (some [1, 2, 3]) = .ok [1, 2, 3] ∧
     Asset.setScale (some [4, 5, 6])
       = .ok [PyVal.num 4, PyVal.num 5, PyVal.num 6]) :=
  ⟨by decide, by decide,
   translation_scale_roundtrip [1, 2, 3] [4, 5, 6] (by decide) (by decide)⟩

/-- C7: a translation of length other than 3, a rotation of length outside
{3, 4} and a scale of length outside {1, 3} each make the corresponding
setter raise a `ValueError` whose message names the expected sizes; the error
is returned before any assignment to the stored field, so the stored value is
not updated. -/
theorem invalid_length_raises (v : List ℚ) (w : List ℝ) (u : List ℚ)
    (hv : v.length ≠ 3) (hw3 : w.length ≠ 3) (hw4 : w.length ≠ 4)
    (hu1 : u.length ≠ 1) (hu3 : u.length ≠ 3) :
    Asset.setTranslation (some v)
      = .error "Translation should be of size 3 (X, Y, Z)" ∧
    Asset.setRotation (some w)
      = .error "Rotation should be of size 3 (Euler angles) or 4 (Quaternions" ∧
    Asset.setScale (some u)
      = .error "Scale should be of size 1 (Uniform scale) or 3 (X, Y, Z)" := by
  refine ⟨by simp [Asset.setTranslation, hv], ?_,
          by simp [Asset.setScale, hu1, hu3]⟩
  rcases w with _ | ⟨a, _ | ⟨b, _ | ⟨c, _ | ⟨d, _ | ⟨e, rest⟩⟩⟩⟩⟩
  · rfl
  · rfl
  · rfl
  · exact absurd rfl hw3
  · exact absurd rfl hw4
  · rfl

/-- Witness for C7 at translation `[1, 2]`, rotation `[1, 2, 3, 4, 5]` and
scale `[7, 8]`. -/
theorem invalid_length_raises_witness :
    (([(1 : ℚ), 2] : List ℚ).length ≠ 3) ∧
    (([(1 : ℝ), 2, 3, 4, 5] : List ℝ).length ≠ 3) ∧
    (([(1 : ℝ), 2, 3, 4, 5] : List ℝ).length ≠ 4) ∧
    (([(7 : ℚ), 8] : List ℚ).length ≠ 1) ∧
    (([(7 : ℚ), 8] : List ℚ).length ≠ 3) ∧
    (Asset.setTranslation (some [1, 2])
       = .error "Translation should be of size 3 (X, Y, Z)" ∧
     Asset.setRotation (some [1, 2, 3, 4, 5])
       = .error "Rotation should be of size 3 (Euler angles) or 4 (Quaternions" ∧
     Asset.setScale (some [7, 8])
       = .error "Scale should be of size 1 (Uniform scale) or 3 (X, Y, Z)") :=
  ⟨by decide, by decide, by decide, by decide, by decide,
   invalid_length_raises [1, 2] [1, 2, 3, 4, 5] [7, 8]
     (by decide) (by decide) (by decide) (by decide) (by decide)⟩

/-- C2 (amended): for every 3-length rotation input, the setter stores
`quat_from_euler` applied directly to the raw components — the values are
interpreted as radians; no degree conversion (`quat_from_degrees`) is
performed. -/
theorem rotation_euler_taken_as_radians (x y z : ℝ) :
    Asset.setRotation (some [x, y, z]) = .ok (quat_from_euler x y z) := rfl

/-- C2 (counterexample): at the concrete input `(180, 0, 0)` the stored
quaternion is not `quat_from_degrees 180 0 0`: the setter computes
`quat_from_euler 180 0 0`, whose scalar component is `cos 90` (radians),
while the degree interpretation gives `cos (pi / 2) = 0`, and `cos 90 ≠ 0`
because pi is irrational. -/
theorem rotation_setter_is_not_quat_from_degrees :
    Asset.setRotation (some [(180 : ℝ), 0, 0]) ≠ .ok (quat_from_degrees 180 0 0) := by
  intro h
  have h2 : quat_from_euler 180 0 0 = quat_from_degrees 180 0 0 := by
    have h3 : Asset.setRotation (some [(180 : ℝ), 0, 0])
        = .ok (quat_from_euler 180 0 0) := rfl
    rw [h3] at h
    exact Except.ok.inj h
  rw [quat_from_degrees, math_radians, math_radians] at h2
  have e180 : (180 : ℝ) * Real.pi / 180 = Real.pi := by ring
  have e0 : (0 : ℝ) * Real.pi / 180 = 0 := by ring
  rw [e180, e0] at h2
  norm_num [quat_from_euler, Real.sin_pi_div_two, Real.cos_pi_div_two] at h2
  obtain ⟨-, hc⟩ := h2
  rw [Real.cos_eq_zero_iff] at hc
  obtain ⟨k, hk⟩ := hc
  have hk0 : (2 * k + 1 : ℤ) ≠ 0 := by omega
  have hne : ((2 * k + 1 : ℤ) : ℝ) ≠ 0 := Int.cast_ne_zero.mpr hk0
  have hne2 : (2 * (k : ℝ) + 1) ≠ 0 := by push_cast at hne; exact hne
  have hval : ((180 / (2 * k + 1) : ℚ) : ℝ) = Real.pi := by
    push_cast
    rw [div_eq_iff hne2]
    linear_combination 2 * hk
  exact irrational_pi ⟨_, hval⟩

/-- C9: for every 3-length rotation input, the quaternion computed and stored
by the rotation setter has exactly unit norm over the reals, and the input
`(0, 0, 0)` yields the identity quaternion `(0, 0, 0, 1)`. -/
theorem rotation_quaternion_unit_norm (x y z : ℝ) :
    quatNormSq (quat_from_euler x y z) = 1 ∧
    Asset.setRotation (some [x, y, z]) = .ok (quat_from_euler x y z) ∧
    Asset.setRotation (some [(0 : ℝ), 0, 0]) = .ok [0, 0, 0, 1] := by
  refine ⟨?_, rfl, ?_⟩
  · have hx := Real.sin_sq_add_cos_sq (x / 2)
    have hy := Real.sin_sq_add_cos_sq (y / 2)
    have hz := Real.sin_sq_add_cos_sq (z / 2)
    simp only [quatNormSq, quat_from_euler, List.map_cons, List.map_nil,
      List.sum_cons, List.sum_nil]
    linear_combination
      ((Real.sin (y / 2) ^ 2 + Real.cos (y / 2) ^ 2)
          * (Real.sin (z / 2) ^ 2 + Real.cos (z / 2) ^ 2)) * hx
        + (Real.sin (z / 2) ^ 2 + Real.cos (z / 2) ^ 2) * hy + hz
  · have h3 : Asset.setRotation (some [(0 : ℝ), 0, 0])
        = .ok (quat_from_euler 0 0 0) := rfl
    rw [h3]
    norm_num [quat_from_euler]

/-- Helper: on every key of the table, looking the key up yields exactly the
feature count the specification describes. -/
lemma lookup_agrees_with_featureCount_spec :
    ∀ q ∈ ALLOWED_STATE_SENSOR_PROPERTIES,
      ALLOWED_STATE_SENSOR_PROPERTIES.lookup q.1
        = some (featureCount_spec q.1) := by decide

/-- Helper: a recognized property name looks up to the spec feature count. -/
lemma lookup_eq_featureCount (p : String) (h : isAllowedProp p = true) :
    ALLOWED_STATE_SENSOR_PROPERTIES.lookup p = some (featureCount_spec p) := by
  have h2 : ∃ q ∈ ALLOWED_STATE_SENSOR_PROPERTIES, p == q.1 :=
    List.lookup_isSome_iff.mp (by simpa [isAllowedProp] using h)
  obtain ⟨q, hmem, hbeq⟩ := h2
  have hp : p = q.1 := eq_of_beq hbeq
  rw [hp]
  exact lookup_agrees_with_featureCount_spec q hmem

/-- Helper: the feature-summing loop, started from any accumulator, adds the
spec feature count of every recognized property. -/
lemma fold_features (P : List String) :
    (∀ p ∈ P, isAllowedProp p = true) →
    ∀ n : Nat, P.foldl stateSensorFoldStep (some n)
      = some (n + (P.map featureCount_spec).sum) := by
  induction P with
  | nil => intro _ n; simp
  | cons p Q ih =>
      intro hP n
      have hp := hP p (List.mem_cons_self p Q)
      have hQ : ∀ q ∈ Q, isAllowedProp q = true := fun q hq =>
        hP q (List.mem_cons_of_mem p hq)
      simp only [List.foldl_cons, stateSensorFoldStep,
        lookup_eq_featureCount p hp]
      rw [ih hQ (n + featureCount_spec p)]
      simp [Nat.add_assoc]

/-- C6: for every valid property list P, the observation-space shape is the
one-element list holding the sum of the per-property feature counts as the
spec describes them (3 for vector properties, 1 for axis components and
distance), in declaration order; and an omitted `properties` defaults to
`[distance]`, whose shape is `[1]`. -/
theorem observation_space_matches_feature_sum (P : List String)
    (hP : ∀ p ∈ P, isAllowedProp p = true) :
    StateSensor.initProperties (PropsInput.list P) = .ok P ∧
    StateSensor.observation_space_shape P
      = some [(P.map featureCount_spec).sum] ∧
    StateSensor.initProperties PropsInput.nothing = .ok ["distance"] ∧
    StateSensor.observation_space_shape ["distance"] = some [1] := by
  refine ⟨?_, ?_, rfl, rfl⟩
  · have hany : P.any (fun p => !(isAllowedProp p)) = false := by
      rw [List.any_eq_false]
      intro p hp
      simp [hP p hp]
    simp [StateSensor.initProperties, hany]
  · unfold StateSensor.observation_space_shape get_state_sensor_n_properties
    rw [fold_features P hP 0]
    simp

/-- Witness for C6 at the concrete property list
`[position, distance, rotation.x]`, whose feature counts 3 + 1 + 1 give
shape `[5]`. -/
theorem observation_space_matches_feature_sum_witness :
    (∀ p ∈ ["position", "distance", "rotation.x"], isAllowedProp p = true) ∧
    (StateSensor.initProperties
        (PropsInput.list ["position", "distance", "rotation.x"])
       = .ok ["position", "distance", "rotation.x"] ∧
     StateSensor.observation_space_shape ["position", "distance", "rotation.x"]
       = some [5] ∧
     StateSensor.initProperties PropsInput.nothing = .ok ["distance"] ∧
     StateSensor.observation_space_shape ["distance"] = some [1]) :=
  ⟨by decide,
   observation_space_matches_feature_sum ["position", "distance", "rotation.x"]
     (by decide)⟩

/-- C4 (counterexample): a single bare unrecognized string passed as
`properties` does not raise: the `elif` is skipped, the string is silently
wrapped into a one-element list and stored, although it is not a recognized
property key. -/
theorem bare_string_property_not_validated :
    StateSensor.initProperties (PropsInput.str "height") = .ok ["height"] ∧
    isAllowedProp "height" = false := ⟨rfl, by decide⟩

/-- C4 (amended): construction raises a validation error exactly when the
`properties` argument is a list/tuple containing an unrecognized name; a bare
string — recognized or not — is wrapped into a one-element list without
validation and construction succeeds. -/
theorem list_properties_validated (l : List String) (s p : String)
    (hp : p ∈ l) (hbad : isAllowedProp p = false) :
    StateSensor.initProperties (PropsInput.list l)
      = .error (stateSensorPropsErrMsg l) ∧
    StateSensor.initProperties (PropsInput.str s) = .ok [s] := by
  refine ⟨?_, rfl⟩
  have hany : l.any (fun q => !(isAllowedProp q)) = true :=
    List.any_eq_true.mpr ⟨p, hp, by simp [hbad]⟩
  simp [StateSensor.initProperties, hany]

/-- Witness for C4 (amended) at the list `[position, foo]` (with `foo`
unrecognized) and the bare string `bar`. -/
theorem list_properties_validated_witness :
    ("foo" ∈ ["position", "foo"]) ∧ (isAllowedProp "foo" = false) ∧
    (StateSensor.initProperties (PropsInput.list ["position", "foo"])
       = .error (stateSensorPropsErrMsg ["position", "foo"]) ∧
     StateSensor.initProperties (PropsInput.str "bar") = .ok ["bar"]) :=
  ⟨by decide, by decide,
   list_properties_validated ["position", "foo"] "bar" "foo"
     (by decide) (by decide)⟩

/-- C5: constructing a `RewardFunction` with a type outside the allowed set
raises a `ValueError` at construction whatever the distance metric argument
is; a distance metric outside the allowed set raises whether the type is any
valid explicit string or omitted; when both are omitted, construction
succeeds with type `dense` and distance metric `euclidean`, every other field
untouched. -/
theorem reward_function_validation {E : Type} (ea eb : E) (t tv m : String)
    (dm : Option String) (sc th : ℚ) (te co tr : Bool)
    (fa fb : Option (RewardFunction E))
    (ht : t ∉ ALLOWED_REWARD_TYPES) (htv : tv ∈ ALLOWED_REWARD_TYPES)
    (hm : m ∉ ALLOWED_REWARD_DISTANCE_METRICS) :
    RewardFunction.post_init (.mk ea eb (some t) dm sc th te co tr fa fb)
      = .error (rewardTypeErrMsg t) ∧
    RewardFunction.post_init (.mk ea eb (some tv) (some m) sc th te co tr fa fb)
      = .error (rewardMetricErrMsg m) ∧
    RewardFunction.post_init (.mk ea eb none (some m) sc th te co tr fa fb)
      = .error (rewardMetricErrMsg m) ∧
    RewardFunction.post_init (.mk ea eb none none sc th te co tr fa fb)
      = .ok (.mk ea eb (some "dense") (some "euclidean") sc th te co tr fa fb) := by
  have hd : "dense" ∈ ALLOWED_REWARD_TYPES := by decide
  have he : "euclidean" ∈ ALLOWED_REWARD_DISTANCE_METRICS := by decide
  refine ⟨?_, ?_, ?_, ?_⟩
  · simp [RewardFunction.post_init, ht]
  · simp [RewardFunction.post_init, htv, hm]
  · simp [RewardFunction.post_init, hd, hm]
  · simp [RewardFunction.post_init, hd, he]

/-- Witness for C5 with entities as strings, the invalid type `foo` paired
with the valid metric `euclidean`, and the invalid distance metric
`manhattan` paired with the valid explicit type `sparse` and with an omitted
type. -/
theorem reward_function_validation_witness :
    ("foo" ∉ ALLOWED_REWARD_TYPES) ∧
    ("sparse" ∈ ALLOWED_REWARD_TYPES) ∧
    ("manhattan" ∉ ALLOWED_REWARD_DISTANCE_METRICS) ∧
    (RewardFunction.post_init
        (RewardFunction.mk "a" "b" (some "foo") (some "euclidean")
          1 1 false false true none none)
       = .error (rewardTypeErrMsg "foo") ∧
     RewardFunction.post_init
        (RewardFunction.mk "a" "b" (some "sparse") (some "manhattan")
          1 1 false false true none none)
       = .error (rewardMetricErrMsg "manhattan") ∧
     RewardFunction.post_init
        (RewardFunction.mk "a" "b" none (some "manhattan")
          1 1 false false true none none)
       = .error (rewardMetricErrMsg "manhattan") ∧
     RewardFunction.post_init
        (RewardFunction.mk "a" "b" none none 1 1 false false true none none)
       = .ok (RewardFunction.mk "a" "b" (some "dense") (some "euclidean")
          1 1 false false true none none)) :=
  ⟨by decide, by decide, by decide,
   reward_function_validation "a" "b" "foo" "sparse" "manhattan"
     (some "euclidean") 1 1 false false true none none
     (by decide) (by decide) (by decide)⟩

/-- C10: `_post_copy` on a validly constructed `RewardFunction` returns a new
instance in which exactly `entity_a` and `entity_b` are re-resolved — each by
looking up the original entity's last-copy name from the agent's tree root —
while type, distance metric, scalar, threshold, is_terminal, is_collectable
and trigger_once keep the original values, and `reward_function_a` /
`reward_function_b` are passed through as the very same child objects.  The
function builds a fresh instance and never mutates its argument, so the
original is unchanged. -/
theorem post_copy_resolves_entities_only {E : Type} (lcn : E → String)
    (agent : Agent E) (ea eb : E) (t m : String) (sc th : ℚ)
    (te co tr : Bool) (fa fb : Option (RewardFunction E))
    (ht : t ∈ ALLOWED_REWARD_TYPES) (hm : m ∈ ALLOWED_REWARD_DISTANCE_METRICS) :
    RewardFunction.post_copy lcn
        (.mk ea eb (some t) (some m) sc th te co tr fa fb) agent
      = .ok (.mk (agent.tree_root.get_node (lcn ea))
          (agent.tree_root.get_node (lcn eb))
          (some t) (some m) sc th te co tr fa fb) := by
  simp [RewardFunction.post_copy, RewardFunction.post_init,
    RewardFunction.entity_a, RewardFunction.entity_b, RewardFunction.ty,
    RewardFunction.distance_metric, RewardFunction.scalar,
    RewardFunction.threshold, RewardFunction.is_terminal,
    RewardFunction.is_collectable, RewardFunction.trigger_once,
    RewardFunction.reward_function_a, RewardFunction.reward_function_b,
    ht, hm]

/-- Witness for C10 with string entities, a last-copy naming function that
appends a suffix, and a tree root resolving every name to itself. -/
theorem post_copy_resolves_entities_only_witness :
    ("sparse" ∈ ALLOWED_REWARD_TYPES) ∧
    ("euclidean" ∈ ALLOWED_REWARD_DISTANCE_METRICS) ∧
    RewardFunction.post_copy (fun e => e ++ "_copy0")
        (RewardFunction.mk "goal" "agent" (some "sparse") (some "euclidean")
          1 1 false false true none none)
        (Agent.mk (SceneRoot.mk (fun n => n)))
      = .ok (RewardFunction.mk "goal_copy0" "agent_copy0"
          (some "sparse") (some "euclidean") 1 1 false false true none none) :=
  ⟨by decide, by decide,
   post_copy_resolves_entities_only (fun e => e ++ "_copy0")
     (Agent.mk (SceneRoot.mk (fun n => n))) "goal" "agent" "sparse" "euclidean"
     1 1 false false true none none (by decide) (by decide)⟩
